import Mathlib

/-!
Verification of the Postmark MCP server's tool-dispatch and
request-normalization layer.

The definitions below are a shallow embedding of the JavaScript source
(`postmark-mcp-server.js` and its richer variant): tool handlers become
Lean functions, the upstream Postmark client becomes an explicit function
argument, thrown exceptions become `Except` errors, and JavaScript's
`x || default` idiom on optional strings becomes `jsOrStr` (an absent
value and the empty string are both falsy in JavaScript).
-/

namespace PostmarkMcp

/-- Process-wide configuration resolved from the environment at startup:
`POSTMARK_SERVER_TOKEN`, `DEFAULT_SENDER_EMAIL`, `DEFAULT_MESSAGE_STREAM`. -/
structure Config where
  serverToken : String
  defaultSender : String
  defaultMessageStream : String
  deriving Repr, DecidableEq

/-- JavaScript truthiness of an optional string: `undefined` and `""` are
falsy, every other string is truthy. -/
def jsTruthyStr : Option String → Bool
  | none => false
  | some s => s != ""

/-- The JavaScript expression `x || d` where `x` is an optional string:
yields `d` when `x` is `undefined` or the empty string, else `x`. -/
def jsOrStr (x : Option String) (d : String) : String :=
  match x with
  | none => d
  | some s => if s = "" then d else s

/-- JavaScript `String.prototype.trim()`: strip leading and trailing
whitespace (modelled on the character list so that it evaluates by
reduction). -/
def jsTrim (s : String) : String :=
  ⟨((s.data.dropWhile Char.isWhitespace).reverse.dropWhile Char.isWhitespace).reverse⟩

/-- One `{type, text}` segment of a tool result. -/
structure TextContent where
  type : String
  text : String
  deriving Repr, DecidableEq

/-- The structured response envelope every tool handler returns on a
normal (non-throwing) exit: `{ content: [...] }`. -/
structure ToolResult where
  content : List TextContent
  deriving Repr, DecidableEq

/-- A successful response from the Postmark send APIs; the handlers only
consume its `MessageID` field. -/
structure SendResponse where
  MessageID : String
  deriving Repr, DecidableEq

/-- The ubiquitous result shape of the handlers:
`{ content: [{ type: "text", text }] }`. -/
def textResult (s : String) : ToolResult :=
  { content := [{ type := "text", text := s }] }

/-- Validated arguments of the `sendEmail` tool (the fields the handler
destructures; `trackOpens`/`trackLinks` are schema-only literals and are
not read by the handler body). -/
structure SendEmailArgs where
  «to» : String
  subject : String
  textBody : String
  «from» : Option String
  messageStream : Option String
  tag : Option String
  deriving Repr, DecidableEq

/-- The provider payload built by the `sendEmail` handler. `Tag` is
`none` when the handler omits the field. -/
structure EmailPayload where
  From : String
  To : String
  Subject : String
  TextBody : String
  MessageStream : String
  TrackOpens : Bool
  TrackLinks : String
  Tag : Option String
  deriving Repr, DecidableEq

/-- Payload construction of the `sendEmail` handler:
`From: from || defaultSender`, `MessageStream: messageStream ||
defaultMessageStream`, constant `TrackOpens: true` and
`TrackLinks: "HtmlAndText"`, and `Tag` only when
`tag && tag.trim() !== ""`. -/
def mkSendEmailPayload (cfg : Config) (a : SendEmailArgs) : EmailPayload :=
  let base : EmailPayload :=
    { From := jsOrStr a.«from» cfg.defaultSender
      To := a.«to»
      Subject := a.subject
      TextBody := a.textBody
      MessageStream := jsOrStr a.messageStream cfg.defaultMessageStream
      TrackOpens := true
      TrackLinks := "HtmlAndText"
      Tag := none }
  match a.tag with
  | some t => if t ≠ "" ∧ jsTrim t ≠ "" then { base with Tag := some t } else base
  | none => base

/-- Example configuration used by concrete counterexamples and witnesses. -/
def cfgEx : Config :=
  { serverToken := "tok"
    defaultSender := "default@x.com"
    defaultMessageStream := "broadcast" }

/-- A `sendEmail` call whose caller-supplied `from` is the empty string:
present after schema validation (`z.string().optional()` accepts `""`),
yet falsy for the `||` defaulting. -/
def emptyFromArgs : SendEmailArgs :=
  { «to» := "a@b.com", subject := "S", textBody := "B"
    «from» := some "", messageStream := none, tag := none }

/-- Error taxonomy of the specification (§7). The embedding uses it to
label the source's identifier-exclusivity throw in
`sendEmailWithTemplate` as an `InvalidArgument` failure. -/
inductive ErrorKind
  | ConfigurationMissing
  | UnknownTool
  | InvalidArgument
  | UpstreamFailure
  deriving Repr, DecidableEq

/-- JavaScript truthiness of an optional number: `undefined` and `0` are
falsy, every other number is truthy (mirrors `if (templateId)`). -/
def jsTruthyNum : Option Int → Bool
  | none => false
  | some n => n != 0

/-- Validated arguments of the `sendEmailWithTemplate` tool. The
`templateModel` object is an opaque passthrough mapping. -/
structure TemplateArgs where
  «to» : String
  templateId : Option Int
  templateAlias : Option String
  templateModel : List (String × String)
  «from» : Option String
  messageStream : Option String
  tag : Option String
  deriving Repr, DecidableEq

/-- Which template identifier field the handler put on the payload:
`TemplateId` or `TemplateAlias`. -/
inductive TemplateRef
  | byId (id : Int)
  | byAlias (name : String)
  deriving Repr, DecidableEq

/-- The provider payload built by the `sendEmailWithTemplate` handler. -/
structure TemplatePayload where
  From : String
  To : String
  TemplateModel : List (String × String)
  MessageStream : String
  TrackOpens : Bool
  TrackLinks : String
  ref : TemplateRef
  Tag : Option String
  deriving Repr, DecidableEq

/-- The identifier-selection chain of the `sendEmailWithTemplate`
handler: `if (templateId) ... else if (templateAlias) ... else throw`. -/
def templateRefOf (a : TemplateArgs) : Except (ErrorKind × String) TemplateRef :=
  if jsTruthyNum a.templateId then
    .ok (.byId (a.templateId.getD 0))
  else if jsTruthyStr a.templateAlias then
    .ok (.byAlias (a.templateAlias.getD ""))
  else
    .error (.InvalidArgument, "Either templateId or templateAlias must be provided.")

/-- Payload construction of the `sendEmailWithTemplate` handler,
including the throw when neither identifier is truthy; the `Tag` field is
attached after the identifier chain, exactly as in the source. -/
def buildTemplatePayload (cfg : Config) (a : TemplateArgs) :
    Except (ErrorKind × String) TemplatePayload :=
  match templateRefOf a with
  | .error e => .error e
  | .ok r =>
    let base : TemplatePayload :=
      { From := jsOrStr a.«from» cfg.defaultSender
        To := a.«to»
        TemplateModel := a.templateModel
        MessageStream := jsOrStr a.messageStream cfg.defaultMessageStream
        TrackOpens := true
        TrackLinks := "HtmlAndText"
        ref := r
        Tag := none }
    .ok (match a.tag with
      | some t => if t ≠ "" ∧ jsTrim t ≠ "" then { base with Tag := some t } else base
      | none => base)

/-- The try/catch variant of the `sendEmail` handler: a failed upstream
call is caught and rendered as
`Failed to send email: ${error.message || 'Unknown error'}`. -/
def sendEmailHandlerTC (cfg : Config) (a : SendEmailArgs)
    (upstream : EmailPayload → Except String SendResponse) : ToolResult :=
  match upstream (mkSendEmailPayload cfg a) with
  | .ok r => textResult ("Email sent! MessageID: " ++ r.MessageID)
  | .error e => textResult ("Failed to send email: " ++ jsOrStr (some e) "Unknown error")

/-- The try/catch variant of the `sendEmailWithTemplate` handler. The
Boolean of the result records whether the upstream client was invoked;
both the internal throw and an upstream failure are caught and rendered
with the `Failed to send template email:` marker. -/
def sendEmailWithTemplateTC (cfg : Config) (a : TemplateArgs)
    (upstream : TemplatePayload → Except String SendResponse) : ToolResult × Bool :=
  match buildTemplatePayload cfg a with
  | .error e =>
    (textResult ("Failed to send template email: " ++ jsOrStr (some e.2) "Unknown error"),
     false)
  | .ok p =>
    match upstream p with
    | .ok r =>
      (textResult ("Email sent with template! MessageID: " ++ r.MessageID), true)
    | .error e =>
      (textResult ("Failed to send template email: " ++ jsOrStr (some e) "Unknown error"),
       true)

/-- One element of the `sendEmailBatch` messages array (the fields the
handler reads; the schema-only tracking literals are not read). -/
structure BatchMsg where
  «to» : String
  subject : String
  textBody : String
  «from» : Option String
  messageStream : Option String
  deriving Repr, DecidableEq

/-- Per-element payload mapping of the `sendEmailBatch` handler. -/
def mkBatchPayload (cfg : Config) (m : BatchMsg) : EmailPayload :=
  { From := jsOrStr m.«from» cfg.defaultSender
    To := m.«to»
    Subject := m.subject
    TextBody := m.textBody
    MessageStream := jsOrStr m.messageStream cfg.defaultMessageStream
    TrackOpens := true
    TrackLinks := "HtmlAndText"
    Tag := none }

/-- The batch array sent upstream: `messages.map(msg => ({...}))`. -/
def buildBatch (cfg : Config) (msgs : List BatchMsg) : List EmailPayload :=
  msgs.map (mkBatchPayload cfg)

/-- The `sendEmailBatch` handler. It has no try/catch: a failed upstream
call escapes the handler as an exception (`Except.error`), so the
handler itself produces no `ToolResult` in that case. -/
def sendEmailBatchHandler (cfg : Config) (msgs : List BatchMsg)
    (upstream : List EmailPayload → Except String String) : Except String ToolResult :=
  match upstream (buildBatch cfg msgs) with
  | .ok s => .ok (textResult ("Batch sent! Results: " ++ s))
  | .error e => .error e

/-- A `sendEmailWithTemplate` call supplying neither `templateId` nor
`templateAlias`. -/
def templateArgsNeither : TemplateArgs :=
  { «to» := "a@b.com", templateId := none, templateAlias := none
    templateModel := [("name", "Ada")], «from» := none, messageStream := none
    tag := none }

/-- A batch message whose caller-supplied `from` is the empty string. -/
def batchMsgEmptyFrom : BatchMsg :=
  { «to» := "a@b.com", subject := "S", textBody := "B"
    «from» := some "", messageStream := none }

/-- A batch message with a non-empty caller-supplied `from`. -/
def batchMsgEx : BatchMsg :=
  { «to» := "b@c.com", subject := "T", textBody := "C"
    «from» := some "alice@x.com", messageStream := none }

/-- Arguments of the `sendEmail` tool in the plain variant of the server
(`postmark-mcp-server.js`): no tag and no tracking fields. -/
structure SendEmailArgsSimple where
  «to» : String
  subject : String
  textBody : String
  «from» : Option String
  messageStream : Option String
  deriving Repr, DecidableEq

/-- Provider request of the plain `sendEmail` variant: exactly the five
fields `From`, `To`, `Subject`, `TextBody`, `MessageStream`. -/
structure SimpleEmailPayload where
  From : String
  To : String
  Subject : String
  TextBody : String
  MessageStream : String
  deriving Repr, DecidableEq

/-- Payload construction of the plain `sendEmail` handler. -/
def mkSimpleEmailPayload (cfg : Config) (a : SendEmailArgsSimple) : SimpleEmailPayload :=
  { From := jsOrStr a.«from» cfg.defaultSender
    To := a.«to»
    Subject := a.subject
    TextBody := a.textBody
    MessageStream := jsOrStr a.messageStream cfg.defaultMessageStream }

/-- The plain `sendEmail` handler (no try/catch): on upstream success the
result text carries the provider-issued `MessageID`. -/
def sendEmailSimpleHandler (cfg : Config) (a : SendEmailArgsSimple)
    (upstream : SimpleEmailPayload → Except String SendResponse) :
    Except String ToolResult :=
  match upstream (mkSimpleEmailPayload cfg a) with
  | .ok r => .ok (textResult ("Email sent! MessageID: " ++ r.MessageID))
  | .error e => .error e

/-- The startup environment-variable validation: the three reads from the
environment and the three `if (!x) throw` checks, in source order. -/
def validateEnv (serverToken defaultSender defaultMessageStream : Option String) :
    Except String Config :=
  if !(jsTruthyStr serverToken) then
    .error "POSTMARK_SERVER_TOKEN is not set. Please configure it in your .env file."
  else if !(jsTruthyStr defaultSender) then
    .error "DEFAULT_SENDER_EMAIL is not set. Please configure it in your .env file."
  else if !(jsTruthyStr defaultMessageStream) then
    .error "DEFAULT_MESSAGE_STREAM is not set. Please configure it in your .env file."
  else
    .ok { serverToken := serverToken.getD ""
          defaultSender := defaultSender.getD ""
          defaultMessageStream := defaultMessageStream.getD "" }

/-- The tools registered by the module body, in registration order. -/
def registeredTools : List String :=
  ["sendEmail", "sendEmailBatch", "sendEmailWithTemplate", "createTemplate",
   "updateTemplate", "listTemplates", "getTemplate", "getDeliveryStats",
   "getOutboundMessages", "createDomain", "verifyDomainDKIM",
   "verifyDomainReturnPath"]

/-- Module startup: environment validation runs before any `server.tool`
registration, so the tool registry exists only when validation passes —
a thrown check aborts the module load with no partial startup. -/
def startup (serverToken defaultSender defaultMessageStream : Option String) :
    Except String (Config × List String) :=
  (validateEnv serverToken defaultSender defaultMessageStream).map
    (fun cfg => (cfg, registeredTools))

/-- The provider request of `getOutboundMessages`: the destructuring
defaults `count = 10`, `offset = 0` apply exactly when the field is
absent (JavaScript default parameters trigger on `undefined` only). -/
def outboundRequest (count offset : Option Int) : Int × Int :=
  (count.getD 10, offset.getD 0)

/-- The `getOutboundMessages` handler; the upstream function returns the
serialized `Messages` list. -/
def getOutboundMessagesHandler (count offset : Option Int)
    (upstream : Int × Int → Except String String) : Except String ToolResult :=
  match upstream (outboundRequest count offset) with
  | .ok s => .ok (textResult s)
  | .error e => .error e

/-- The raw JSON statistics fields consumed by `getDeliveryStats`; an
absent field is `none` and defaulted by `|| 0`. Counts are modelled as
exact naturals, so every modelled value is a finite number. -/
structure RawStats where
  Sent : Option Nat
  Tracked : Option Nat
  UniqueOpens : Option Nat
  TotalTrackedLinksSent : Option Nat
  UniqueLinksClicked : Option Nat
  deriving Repr, DecidableEq

/-- The `x || 0` defaulting applied to each raw statistics field. -/
def orZero : Option Nat → Nat
  | none => 0
  | some n => n

/-- `Number.isFinite` on an exact natural count: always true. -/
def numIsFinite (_ : Nat) : Bool := true

/-- `toFixed(1)` on an exact non-negative rational: the value rounded to
the nearest tenth, written with one decimal digit. The integer
`(20 * q.num + q.den) / (2 * q.den)` is `⌊10q + 1/2⌋` for `q ≥ 0`. -/
def toFixed1 (q : ℚ) : String :=
  let n : Int := (20 * q.num + q.den) / (2 * q.den)
  toString (n / 10) ++ "." ++ toString (n % 10)

/-- The open rate of `getDeliveryStats`:
`tracked > 0 ? Math.min((uniqueOpens / tracked) * 100, 100).toFixed(1) : '0.0'`. -/
def openRate (s : RawStats) : String :=
  let tracked := orZero s.Tracked
  let uniqueOpens := orZero s.UniqueOpens
  if tracked > 0 then
    toFixed1 (min ((uniqueOpens : ℚ) / (tracked : ℚ) * 100) 100)
  else "0.0"

/-- The click rate of `getDeliveryStats`, including the
`Number.isFinite` guards of the source. -/
def safeClickRate (s : RawStats) : String :=
  let totalTrackedLinks := orZero s.TotalTrackedLinksSent
  let uniqueLinksClicked := orZero s.UniqueLinksClicked
  let safeTotal := if numIsFinite totalTrackedLinks then totalTrackedLinks else 0
  let safeClicked := if numIsFinite uniqueLinksClicked then uniqueLinksClicked else 0
  if safeTotal > 0 then
    toFixed1 (min ((safeClicked : ℚ) / (safeTotal : ℚ) * 100) 100)
  else "0.0"

/-- The `getDeliveryStats` handler's result construction, as a function
of the try-block outcome (the fetched and decoded statistics, or the
caught error rendered by `err.toString()`): on success the summary text
with both rates, on a caught failure the text
`Error fetching delivery stats: ${err.toString()}` — note: no
`Unknown error` fallback here, unlike the send handlers. -/
def getDeliveryStatsHandler (stats : Except String RawStats) : ToolResult :=
  match stats with
  | .ok data =>
    let sent := orZero data.Sent
    let tracked := orZero data.Tracked
    let totalTrackedLinks := orZero data.TotalTrackedLinksSent
    let uniqueLinksClicked := orZero data.UniqueLinksClicked
    let safeTotal := if numIsFinite totalTrackedLinks then totalTrackedLinks else 0
    let safeClicked := if numIsFinite uniqueLinksClicked then uniqueLinksClicked else 0
    textResult ("You sent " ++ toString sent ++
      " emails in the selected period.\nOut of " ++ toString tracked ++
      " emails with open tracking, " ++ openRate data ++
      "% were opened.\nOut of " ++ toString safeTotal ++
      " tracked links, " ++ toString safeClicked ++
      " unique links were clicked (" ++ safeClickRate data ++ "%).")
  | .error err => textResult ("Error fetching delivery stats: " ++ err)

/-- Numeric value of the displayed open rate (0 at a zero denominator),
used to state the [0, 100] safety bound. -/
def openRateVal (s : RawStats) : ℚ :=
  let tracked := orZero s.Tracked
  if tracked > 0 then
    min ((orZero s.UniqueOpens : ℚ) / (tracked : ℚ) * 100) 100
  else 0

/-- Numeric value of the displayed click rate (0 at a zero denominator). -/
def clickRateVal (s : RawStats) : ℚ :=
  let total := orZero s.TotalTrackedLinksSent
  if total > 0 then
    min ((orZero s.UniqueLinksClicked : ℚ) / (total : ℚ) * 100) 100
  else 0

/-- The openRate formula as the specification words it (§4.3): 0 when
`tracked == 0`, else `min(uniqueOpens / tracked × 100, 100)`, rendered to
one decimal place. -/
def specOpenRate (tracked uniqueOpens : Nat) : String :=
  if tracked = 0 then "0.0"
  else toFixed1 (min ((uniqueOpens : ℚ) / (tracked : ℚ) * 100) 100)

/-- The clickRate formula as the specification words it (§4.3); on exact
non-negative counts the non-finite case is vacuous. -/
def specClickRate (totalTrackedLinksSent uniqueLinksClicked : Nat) : String :=
  if totalTrackedLinksSent = 0 then "0.0"
  else toFixed1 (min ((uniqueLinksClicked : ℚ) / (totalTrackedLinksSent : ℚ) * 100) 100)

/-- Raw (pre-validation) shape of a `sendEmail` call, with the
caller-supplied tracking fields the schema constrains to literals. -/
structure RawSendEmailInput where
  «from» : Option String
  «to» : String
  subject : String
  textBody : String
  messageStream : Option String
  tag : Option String
  trackOpens : Bool
  trackLinks : String
  deriving Repr, DecidableEq

/-- The `sendEmail` zod schema: `to` must satisfy the (external) email
format check and `trackOpens`/`trackLinks` must equal the literals
`true` / `"HtmlAndText"`. -/
def sendEmailSchemaOk (emailOk : String → Bool) (r : RawSendEmailInput) : Bool :=
  emailOk r.«to» && (r.trackOpens == true) && (r.trackLinks == "HtmlAndText")

/-- Raw shape of one `sendEmailBatch` message element. -/
structure RawBatchMsgInput where
  «to» : String
  subject : String
  textBody : String
  «from» : Option String
  messageStream : Option String
  trackOpens : Bool
  trackLinks : String
  deriving Repr, DecidableEq

/-- The per-element schema of `sendEmailBatch`. -/
def batchMsgSchemaOk (emailOk : String → Bool) (r : RawBatchMsgInput) : Bool :=
  emailOk r.«to» && (r.trackOpens == true) && (r.trackLinks == "HtmlAndText")

/-- Raw shape of a `sendEmailWithTemplate` call. -/
structure RawTemplateInput where
  «to» : String
  templateId : Option Int
  templateAlias : Option String
  templateModel : List (String × String)
  «from» : Option String
  messageStream : Option String
  tag : Option String
  trackOpens : Bool
  trackLinks : String
  deriving Repr, DecidableEq

/-- The `sendEmailWithTemplate` zod schema. -/
def templateSchemaOk (emailOk : String → Bool) (r : RawTemplateInput) : Bool :=
  emailOk r.«to» && (r.trackOpens == true) && (r.trackLinks == "HtmlAndText")

/-- Configuration of the §8 scenario: default sender `info@x.com`,
default stream `outbound`. -/
def cfgScenario : Config :=
  { serverToken := "tok"
    defaultSender := "info@x.com"
    defaultMessageStream := "outbound" }

/-- Arguments of the §8 scenario: `{to:"a@b.com", subject:"S",
textBody:"B"}` with `from` and `messageStream` omitted. -/
def argsScenario : SendEmailArgsSimple :=
  { «to» := "a@b.com", subject := "S", textBody := "B"
    «from» := none, messageStream := none }

/-- A `sendEmail` call with a non-empty tag, used as a witness input. -/
def argsTagEx : SendEmailArgs :=
  { «to» := "a@b.com", subject := "S", textBody := "B"
    «from» := none, messageStream := none, tag := some "welcome" }

/-- Statistics with both denominators zero, used as a witness input. -/
def statsZero : RawStats :=
  { Sent := some 5, Tracked := some 0, UniqueOpens := some 3
    TotalTrackedLinksSent := some 0, UniqueLinksClicked := some 0 }

end PostmarkMcp

open PostmarkMcp

/-- Helper: `x || d` yields `x` for a present non-empty string. -/
theorem jsOrStr_some_ne (s d : String) (h : s ≠ "") : jsOrStr (some s) d = s := by
  simp [jsOrStr, h]

/-- Helper: `x || d` yields `d` for an absent value. -/
theorem jsOrStr_none (d : String) : jsOrStr none d = d := rfl

/-- Helper: `x || d` yields `d` for a present empty string. -/
theorem jsOrStr_some_empty (d : String) : jsOrStr (some "") d = d := rfl

/-- C1 counterexample: with `from` caller-supplied as the empty string
(a valid, present argument), the constructed request's `From` is the
configured default sender, not the caller-supplied value — so the claim
"From equals the caller-supplied from when present" fails as stated. -/
theorem sendEmail_emptyFrom_counterexample :
    emptyFromArgs.«from» = some "" ∧
    (mkSendEmailPayload cfgEx emptyFromArgs).From = "default@x.com" ∧
    "default@x.com" ≠ "" := by
  refine ⟨rfl, rfl, by decide⟩

/-- C1 (amended): for every valid `sendEmail` input, the constructed
request's `From` equals the caller-supplied `from` when present and
non-empty, else the configured default sender; and `MessageStream`
equals the caller-supplied `messageStream` when present and non-empty,
else the configured default message stream. -/
theorem sendEmail_from_messageStream_defaulting (cfg : Config) (a : SendEmailArgs) :
    (∀ s, a.«from» = some s → s ≠ "" → (mkSendEmailPayload cfg a).From = s) ∧
    ((a.«from» = none ∨ a.«from» = some "") →
      (mkSendEmailPayload cfg a).From = cfg.defaultSender) ∧
    (∀ s, a.messageStream = some s → s ≠ "" →
      (mkSendEmailPayload cfg a).MessageStream = s) ∧
    ((a.messageStream = none ∨ a.messageStream = some "") →
      (mkSendEmailPayload cfg a).MessageStream = cfg.defaultMessageStream) := by
  have hFrom : (mkSendEmailPayload cfg a).From = jsOrStr a.«from» cfg.defaultSender := by
    unfold mkSendEmailPayload
    cases a.tag with
    | none => rfl
    | some t => by_cases h : t ≠ "" ∧ jsTrim t ≠ "" <;> simp [h]
  have hStream : (mkSendEmailPayload cfg a).MessageStream
      = jsOrStr a.messageStream cfg.defaultMessageStream := by
    unfold mkSendEmailPayload
    cases a.tag with
    | none => rfl
    | some t => by_cases h : t ≠ "" ∧ jsTrim t ≠ "" <;> simp [h]
  refine ⟨?_, ?_, ?_, ?_⟩
  · intro s hs hne
    rw [hFrom, hs]
    simp [jsOrStr, hne]
  · intro h
    rcases h with h | h <;> rw [hFrom, h] <;> simp [jsOrStr]
  · intro s hs hne
    rw [hStream, hs]
    simp [jsOrStr, hne]
  · intro h
    rcases h with h | h <;> rw [hStream, h] <;> simp [jsOrStr]

/-- Witness for the amended C1 at concrete inputs: a supplied non-empty
`from` wins, an omitted `messageStream` falls back to the default. -/
theorem sendEmail_from_messageStream_defaulting_witness :
    (mkSendEmailPayload cfgEx
      { «to» := "a@b.com", subject := "S", textBody := "B"
        «from» := some "alice@x.com", messageStream := none, tag := none }).From
      = "alice@x.com" ∧
    (mkSendEmailPayload cfgEx
      { «to» := "a@b.com", subject := "S", textBody := "B"
        «from» := some "alice@x.com", messageStream := none, tag := none }).MessageStream
      = "broadcast" := by
  have h := sendEmail_from_messageStream_defaulting cfgEx
    { «to» := "a@b.com", subject := "S", textBody := "B"
      «from» := some "alice@x.com", messageStream := none, tag := none }
  exact ⟨h.1 "alice@x.com" rfl (by decide), h.2.2.2 (Or.inl rfl)⟩

/-- C2: a `sendEmailWithTemplate` call supplying neither `templateId` nor
`templateAlias` hits the identifier-exclusivity throw — an
`InvalidArgument` failure — the upstream client is never invoked, and the
invocation yields the caught failure result. -/
theorem sendEmailWithTemplate_neither_invalidArgument (cfg : Config) (a : TemplateArgs)
    (upstream : TemplatePayload → Except String SendResponse)
    (hId : a.templateId = none) (hAl : a.templateAlias = none) :
    templateRefOf a =
      .error (.InvalidArgument, "Either templateId or templateAlias must be provided.") ∧
    (sendEmailWithTemplateTC cfg a upstream).2 = false ∧
    (sendEmailWithTemplateTC cfg a upstream).1 =
      textResult "Failed to send template email: Either templateId or templateAlias must be provided." := by
  have href : templateRefOf a =
      .error (.InvalidArgument, "Either templateId or templateAlias must be provided.") := by
    simp [templateRefOf, hId, hAl, jsTruthyNum, jsTruthyStr]
  refine ⟨href, ?_, ?_⟩ <;>
    simp [sendEmailWithTemplateTC, buildTemplatePayload, href, jsOrStr]

/-- Witness for C2 at a concrete call: neither identifier supplied, the
upstream client is not called and the failure text is returned. -/
theorem sendEmailWithTemplate_neither_invalidArgument_witness :
    (sendEmailWithTemplateTC cfgEx templateArgsNeither (fun _ => .error "never")).2 = false ∧
    (sendEmailWithTemplateTC cfgEx templateArgsNeither (fun _ => .error "never")).1 =
      textResult "Failed to send template email: Either templateId or templateAlias must be provided." := by
  have h := sendEmailWithTemplate_neither_invalidArgument cfgEx templateArgsNeither
    (fun _ => .error "never") rfl rfl
  exact ⟨h.2.1, h.2.2⟩

/-- C5 counterexample: the `sendEmailBatch` handler has no catch, so a
failed upstream call escapes the handler as an exception instead of
yielding a ToolResult with an operation-identifying failure marker — the
claim, quantified over every tool, fails on this tool. -/
theorem sendEmailBatch_upstream_failure_counterexample :
    (sendEmailBatchHandler cfgEx [batchMsgEx] (fun _ => .error "boom")).isOk = false ∧
    sendEmailBatchHandler cfgEx [batchMsgEx] (fun _ => .error "boom") = .error "boom" :=
  ⟨rfl, rfl⟩

/-- C5 (amended): for the handlers that install a catch in the try/catch
variant, a raised failure is caught and rendered as a ToolResult whose
text is a fixed operation-identifying marker followed by the failure —
`sendEmail` and `sendEmailWithTemplate` render
`Failed to send [template ]email:` followed by the failure's message, or
`Unknown error` when that message is empty, while `getDeliveryStats`
renders `Error fetching delivery stats:` followed by the error's
`toString()` rendering, with no fallback. -/
theorem handler_failure_text :
    (∀ (cfg : Config) (a : SendEmailArgs) (e : String)
        (up : EmailPayload → Except String SendResponse),
      up (mkSendEmailPayload cfg a) = .error e →
      sendEmailHandlerTC cfg a up =
        textResult ("Failed to send email: " ++ jsOrStr (some e) "Unknown error")) ∧
    (∀ (cfg : Config) (ta : TemplateArgs) (p : TemplatePayload) (e : String)
        (up : TemplatePayload → Except String SendResponse),
      buildTemplatePayload cfg ta = .ok p → up p = .error e →
      sendEmailWithTemplateTC cfg ta up =
        (textResult ("Failed to send template email: " ++ jsOrStr (some e) "Unknown error"),
         true)) ∧
    (∀ e : String,
      getDeliveryStatsHandler (.error e) =
        textResult ("Error fetching delivery stats: " ++ e)) := by
  refine ⟨?_, ?_, ?_⟩
  · intro cfg a e up h
    simp [sendEmailHandlerTC, h]
  · intro cfg ta p e up hb h
    simp [sendEmailWithTemplateTC, hb, h]
  · intro e
    rfl

/-- Witness for the amended C5: a concrete failing upstream call to
`sendEmail` is rendered with the `Failed to send email:` marker and the
message, and a concrete caught `getDeliveryStats` failure is rendered
with its own marker and the error's rendering, no fallback. -/
theorem handler_failure_text_witness :
    sendEmailHandlerTC cfgEx emptyFromArgs (fun _ => .error "boom") =
      textResult "Failed to send email: boom" ∧
    getDeliveryStatsHandler (.error "TypeError: fetch failed") =
      textResult "Error fetching delivery stats: TypeError: fetch failed" :=
  ⟨handler_failure_text.1 cfgEx emptyFromArgs "boom" (fun _ => .error "boom") rfl,
   handler_failure_text.2.2 "TypeError: fetch failed"⟩

/-- C9 counterexample: a batch element whose `from` is the empty string
(present, valid) is mapped to the default sender, so the per-element law
"From equals the element's from when present" fails as stated. -/
theorem sendEmailBatch_emptyFrom_counterexample :
    batchMsgEmptyFrom.«from» = some "" ∧
    (buildBatch cfgEx [batchMsgEmptyFrom]).map (fun p => p.From) = ["default@x.com"] ∧
    "default@x.com" ≠ "" :=
  ⟨rfl, rfl, by decide⟩

/-- C9 (amended): `sendEmailBatch` builds a provider batch of the same
length in the same order, where the i-th entry copies the i-th message's
`to`/`subject`/`textBody`, takes its `From` from the element's `from`
when present and non-empty (else the default sender), and its
`MessageStream` from the element's `messageStream` when present and
non-empty (else the default message stream). -/
theorem sendEmailBatch_mapping (cfg : Config) (msgs : List BatchMsg) :
    (buildBatch cfg msgs).length = msgs.length ∧
    ∀ (i : Nat) (m : BatchMsg), msgs[i]? = some m →
      (buildBatch cfg msgs)[i]? = some (mkBatchPayload cfg m) ∧
      (mkBatchPayload cfg m).To = m.«to» ∧
      (mkBatchPayload cfg m).Subject = m.subject ∧
      (mkBatchPayload cfg m).TextBody = m.textBody ∧
      (∀ s, m.«from» = some s → s ≠ "" → (mkBatchPayload cfg m).From = s) ∧
      ((m.«from» = none ∨ m.«from» = some "") →
        (mkBatchPayload cfg m).From = cfg.defaultSender) ∧
      (∀ s, m.messageStream = some s → s ≠ "" →
        (mkBatchPayload cfg m).MessageStream = s) ∧
      ((m.messageStream = none ∨ m.messageStream = some "") →
        (mkBatchPayload cfg m).MessageStream = cfg.defaultMessageStream) := by
  refine ⟨by simp [buildBatch], ?_⟩
  intro i m hm
  refine ⟨?_, rfl, rfl, rfl, ?_, ?_, ?_, ?_⟩
  · simp [buildBatch, hm]
  · intro s hs hne
    simp [mkBatchPayload, hs, jsOrStr_some_ne s _ hne]
  · intro h
    rcases h with h | h <;> simp [mkBatchPayload, h, jsOrStr_none, jsOrStr_some_empty]
  · intro s hs hne
    simp [mkBatchPayload, hs, jsOrStr_some_ne s _ hne]
  · intro h
    rcases h with h | h <;> simp [mkBatchPayload, h, jsOrStr_none, jsOrStr_some_empty]

/-- Witness for the amended C9 at a concrete two-element batch: length
preserved, order preserved, per-element defaulting applied. -/
theorem sendEmailBatch_mapping_witness :
    (buildBatch cfgEx [batchMsgEx, batchMsgEmptyFrom]).length = 2 ∧
    (buildBatch cfgEx [batchMsgEx, batchMsgEmptyFrom])[0]? =
      some (mkBatchPayload cfgEx batchMsgEx) ∧
    (mkBatchPayload cfgEx batchMsgEx).From = "alice@x.com" ∧
    (mkBatchPayload cfgEx batchMsgEx).MessageStream = "broadcast" := by
  have h := sendEmailBatch_mapping cfgEx [batchMsgEx, batchMsgEmptyFrom]
  have h0 := h.2 0 batchMsgEx rfl
  exact ⟨h.1, h0.1, h0.2.2.2.2.1 "alice@x.com" rfl (by decide),
    h0.2.2.2.2.2.2.2 (Or.inl rfl)⟩

/-- C3: the rates computed by `getDeliveryStats` agree with the
specification's formulas — openRate is 0 when `tracked == 0` and
otherwise `min(uniqueOpens / tracked × 100, 100)` to one decimal place,
and clickRate is 0 when `totalTrackedLinksSent == 0` and otherwise
`min(uniqueLinksClicked / totalTrackedLinksSent × 100, 100)` to one
decimal place (on exact non-negative counts every value is finite). -/
theorem getDeliveryStats_rate_formulas (s : RawStats) :
    openRate s = specOpenRate (orZero s.Tracked) (orZero s.UniqueOpens) ∧
    safeClickRate s =
      specClickRate (orZero s.TotalTrackedLinksSent) (orZero s.UniqueLinksClicked) := by
  constructor
  · unfold openRate specOpenRate
    rcases Nat.eq_zero_or_pos (orZero s.Tracked) with h | h
    · simp [h]
    · simp [h, Nat.pos_iff_ne_zero.mp h]
  · unfold safeClickRate specClickRate numIsFinite
    rcases Nat.eq_zero_or_pos (orZero s.TotalTrackedLinksSent) with h | h
    · simp [h]
    · simp [h, Nat.pos_iff_ne_zero.mp h]

/-- C4: the displayed rates of `getDeliveryStats` are always within
[0, 100] for any non-negative input counts, and a zero denominator
yields the textual value "0.0" (the computation is total: no division by
zero is ever performed and no exception escapes). -/
theorem getDeliveryStats_rates_bounded (s : RawStats) :
    (0 ≤ openRateVal s ∧ openRateVal s ≤ 100) ∧
    (0 ≤ clickRateVal s ∧ clickRateVal s ≤ 100) ∧
    (orZero s.Tracked = 0 → openRate s = "0.0") ∧
    (orZero s.TotalTrackedLinksSent = 0 → safeClickRate s = "0.0") := by
  have hb : ∀ (u t : Nat),
      0 ≤ (if t > 0 then min ((u : ℚ) / (t : ℚ) * 100) 100 else 0) ∧
      (if t > 0 then min ((u : ℚ) / (t : ℚ) * 100) 100 else 0) ≤ 100 := by
    intro u t
    by_cases h : t > 0
    · rw [if_pos h]
      exact ⟨le_min (by positivity) (by norm_num), min_le_right _ _⟩
    · rw [if_neg h]
      norm_num
  refine ⟨hb (orZero s.UniqueOpens) (orZero s.Tracked),
    hb (orZero s.UniqueLinksClicked) (orZero s.TotalTrackedLinksSent), ?_, ?_⟩
  · intro h
    simp [openRate, h]
  · intro h
    simp [safeClickRate, numIsFinite, h]

/-- Witness for C4 at statistics with both denominators zero: the rate
values sit in [0, 100] and both rendered rates are "0.0". -/
theorem getDeliveryStats_rates_bounded_witness :
    (0 ≤ openRateVal statsZero ∧ openRateVal statsZero ≤ 100) ∧
    openRate statsZero = "0.0" ∧ safeClickRate statsZero = "0.0" := by
  have h := getDeliveryStats_rates_bounded statsZero
  exact ⟨h.1, h.2.2.1 rfl, h.2.2.2 rfl⟩

/-- C6: the §8 scenario — `sendEmail({to:"a@b.com", subject:"S",
textBody:"B"})` with default sender `info@x.com` and default stream
`outbound` constructs exactly the five-field provider request of the
plain variant, and the success text carries the provider-returned
message identifier. -/
theorem sendEmail_default_scenario :
    mkSimpleEmailPayload cfgScenario argsScenario =
      { From := "info@x.com", To := "a@b.com", Subject := "S"
        TextBody := "B", MessageStream := "outbound" } ∧
    ∀ mid : String,
      sendEmailSimpleHandler cfgScenario argsScenario (fun _ => .ok { MessageID := mid }) =
        .ok (textResult ("Email sent! MessageID: " ++ mid)) :=
  ⟨rfl, fun _ => rfl⟩

/-- C7: if any of the three required environment values is missing or
empty, startup fails: no configuration is produced and no tool is
registered (the module throws before any `server.tool` call). -/
theorem startup_missing_config_fails (t s m : Option String)
    (h : t = none ∨ t = some "" ∨ s = none ∨ s = some "" ∨ m = none ∨ m = some "") :
    (startup t s m).isOk = false := by
  have ht : jsTruthyStr t = false ∨ jsTruthyStr s = false ∨ jsTruthyStr m = false := by
    rcases h with h | h | h | h | h | h <;> subst h <;> simp [jsTruthyStr]
  unfold startup validateEnv
  rcases ht with h' | h' | h'
  · simp [h', Except.map, Except.isOk, Except.toBool]
  · cases h1 : jsTruthyStr t <;> simp [h1, h', Except.map, Except.isOk, Except.toBool]
  · cases h1 : jsTruthyStr t <;> cases h2 : jsTruthyStr s <;>
      simp [h1, h2, h', Except.map, Except.isOk, Except.toBool]

/-- Witness for C7: with the server token absent (and the other values
set), startup produces no configuration and no tool registry. -/
theorem startup_missing_config_fails_witness :
    (startup none (some "info@x.com") (some "outbound")).isOk = false :=
  startup_missing_config_fails none (some "info@x.com") (some "outbound") (Or.inl rfl)

/-- C8: a `getOutboundMessages` call supplying neither `count` nor
`offset` produces the same provider request, and the same result for
every upstream behavior, as a call supplying `count = 10, offset = 0`. -/
theorem getOutboundMessages_default_equivalence :
    outboundRequest none none = outboundRequest (some 10) (some 0) ∧
    ∀ upstream : Int × Int → Except String String,
      getOutboundMessagesHandler none none upstream =
        getOutboundMessagesHandler (some 10) (some 0) upstream :=
  ⟨rfl, fun _ => rfl⟩

/-- Helper: the `sendEmail` payload always carries the tracking literals,
and carries a `Tag` only for a caller tag that is non-empty after
trimming. -/
theorem mkSendEmailPayload_fixed_fields (cfg : Config) (a : SendEmailArgs) :
    (mkSendEmailPayload cfg a).TrackOpens = true ∧
    (mkSendEmailPayload cfg a).TrackLinks = "HtmlAndText" ∧
    ∀ t, (mkSendEmailPayload cfg a).Tag = some t → a.tag = some t ∧ jsTrim t ≠ "" := by
  unfold mkSendEmailPayload
  cases htag : a.tag with
  | none =>
    refine ⟨rfl, rfl, ?_⟩
    intro t ht
    simp at ht
  | some u =>
    dsimp only
    by_cases hc : u ≠ "" ∧ jsTrim u ≠ ""
    · rw [if_pos hc]
      refine ⟨rfl, rfl, ?_⟩
      intro t ht
      simp at ht
      subst ht
      exact ⟨rfl, hc.2⟩
    · rw [if_neg hc]
      refine ⟨rfl, rfl, ?_⟩
      intro t ht
      simp at ht

/-- Helper: fields of a successfully built `sendEmailWithTemplate`
payload — tracking literals always present, `Tag` only for a caller tag
that is non-empty after trimming. -/
theorem buildTemplatePayload_ok_fields (cfg : Config) (a : TemplateArgs)
    (p : TemplatePayload) (hp : buildTemplatePayload cfg a = .ok p) :
    p.TrackOpens = true ∧ p.TrackLinks = "HtmlAndText" ∧
    ∀ t, p.Tag = some t → a.tag = some t ∧ jsTrim t ≠ "" := by
  unfold buildTemplatePayload at hp
  cases href : templateRefOf a with
  | error e =>
    rw [href] at hp
    cases hp
  | ok r =>
    rw [href] at hp
    dsimp only at hp
    cases htag : a.tag with
    | none =>
      rw [htag] at hp
      injection hp with hp
      subst hp
      refine ⟨rfl, rfl, ?_⟩
      intro t ht
      simp at ht
    | some u =>
      rw [htag] at hp
      dsimp only at hp
      by_cases hc : u ≠ "" ∧ jsTrim u ≠ ""
      · rw [if_pos hc] at hp
        injection hp with hp
        subst hp
        refine ⟨rfl, rfl, ?_⟩
        intro t ht
        simp at ht
        subst ht
        exact ⟨rfl, hc.2⟩
      · rw [if_neg hc] at hp
        injection hp with hp
        subst hp
        refine ⟨rfl, rfl, ?_⟩
        intro t ht
        simp at ht

/-- C10: every provider payload of `sendEmail`, of each `sendEmailBatch`
element, and of `sendEmailWithTemplate` carries `TrackOpens = true` and
`TrackLinks = "HtmlAndText"` regardless of caller arguments; the input
schemas accept only those literal values for `trackOpens`/`trackLinks`;
and a `Tag` field is included only when the caller-supplied tag is
non-empty after trimming whitespace. -/
theorem tracking_literals_and_tag :
    (∀ (cfg : Config) (a : SendEmailArgs),
      (mkSendEmailPayload cfg a).TrackOpens = true ∧
      (mkSendEmailPayload cfg a).TrackLinks = "HtmlAndText") ∧
    (∀ (cfg : Config) (m : BatchMsg),
      (mkBatchPayload cfg m).TrackOpens = true ∧
      (mkBatchPayload cfg m).TrackLinks = "HtmlAndText" ∧
      (mkBatchPayload cfg m).Tag = none) ∧
    (∀ (cfg : Config) (a : TemplateArgs) (p : TemplatePayload),
      buildTemplatePayload cfg a = .ok p →
      p.TrackOpens = true ∧ p.TrackLinks = "HtmlAndText") ∧
    (∀ (emailOk : String → Bool) (r : RawSendEmailInput),
      sendEmailSchemaOk emailOk r = true →
      r.trackOpens = true ∧ r.trackLinks = "HtmlAndText") ∧
    (∀ (emailOk : String → Bool) (r : RawBatchMsgInput),
      batchMsgSchemaOk emailOk r = true →
      r.trackOpens = true ∧ r.trackLinks = "HtmlAndText") ∧
    (∀ (emailOk : String → Bool) (r : RawTemplateInput),
      templateSchemaOk emailOk r = true →
      r.trackOpens = true ∧ r.trackLinks = "HtmlAndText") ∧
    (∀ (cfg : Config) (a : SendEmailArgs) (t : String),
      (mkSendEmailPayload cfg a).Tag = some t → a.tag = some t ∧ jsTrim t ≠ "") ∧
    (∀ (cfg : Config) (a : TemplateArgs) (p : TemplatePayload) (t : String),
      buildTemplatePayload cfg a = .ok p → p.Tag = some t →
      a.tag = some t ∧ jsTrim t ≠ "") := by
  refine ⟨?_, ?_, ?_, ?_, ?_, ?_, ?_, ?_⟩
  · intro cfg a
    exact ⟨(mkSendEmailPayload_fixed_fields cfg a).1,
      (mkSendEmailPayload_fixed_fields cfg a).2.1⟩
  · intro cfg m
    exact ⟨rfl, rfl, rfl⟩
  · intro cfg a p hp
    exact ⟨(buildTemplatePayload_ok_fields cfg a p hp).1,
      (buildTemplatePayload_ok_fields cfg a p hp).2.1⟩
  · intro emailOk r h
    simp [sendEmailSchemaOk, Bool.and_eq_true, beq_iff_eq] at h
    exact ⟨h.1.2, h.2⟩
  · intro emailOk r h
    simp [batchMsgSchemaOk, Bool.and_eq_true, beq_iff_eq] at h
    exact ⟨h.1.2, h.2⟩
  · intro emailOk r h
    simp [templateSchemaOk, Bool.and_eq_true, beq_iff_eq] at h
    exact ⟨h.1.2, h.2⟩
  · intro cfg a t ht
    exact (mkSendEmailPayload_fixed_fields cfg a).2.2 t ht
  · intro cfg a p t hp ht
    exact (buildTemplatePayload_ok_fields cfg a p hp).2.2 t ht

/-- Witness for C10 at a concrete call with tag `welcome`: tracking
literal present on the payload, and the attached tag is the caller's
non-blank tag. -/
theorem tracking_literals_and_tag_witness :
    (mkSendEmailPayload cfgEx argsTagEx).TrackOpens = true ∧
    argsTagEx.tag = some "welcome" ∧ jsTrim "welcome" ≠ "" := by
  have h := tracking_literals_and_tag
  have h7 := h.2.2.2.2.2.2.1 cfgEx argsTagEx "welcome" (by decide)
  exact ⟨(h.1 cfgEx argsTagEx).1, h7.1, h7.2⟩
